import Mathlib

/-!
Shallow embedding of the gabo_studio authentication and contract-access core.

The definitions below are transcribed from the repository sources:
Oauth2.py, app/core/config.py, app/api/security.py, app/api/dependencies.py,
app/services/auth_service.py, app/api/endpoints/users.py,
app/api/endpoints/contracts.py, datamanager/data_manager_SQLAlchemy.py,
app/datamanager/models.py and pydantic_models.py.  Stateful database code is
modelled by explicit state passing over a `Db` record; Python exceptions are
modelled by `Except PyExc`; wall-clock reads are explicit integer parameters
(seconds since the epoch).  A handful of DataManager methods are referenced by
the service layer but are absent from the sources; each of those carries a
doc comment starting with "Modelled from the spec:".
-/

/-- Python exception values raised by the embedded code paths.  Each
constructor corresponds to one exception class appearing in the sources
(`httpException` carries the status code, the detail string and whether a
WWW-Authenticate Bearer header is attached). -/
inductive PyExc where
  | valueError (msg : String)
  | runtimeError (msg : String)
  | attributeError (attr : String)
  | unknownHashError
  | jwtInvalidToken
  | invalidTokenError (msg : String)
  | expiredTokenError (msg : String)
  | userNotFoundError (msg : String)
  | contractNotFound (msg : String)
  | contractUserMismatch (msg : String)
  | httpException (statusCode : Nat) (detail : String) (wwwAuthBearer : Bool)
  deriving DecidableEq, Repr

/-- Model of a passlib/bcrypt hash value.  `bcrypt salt content` stands for a
string produced by `pwd_context.hash` (bcrypt formatted, recognizable to
passlib); `malformed s` stands for any string that is not in a format passlib
recognizes.  The model keeps the hashed plaintext abstractly recoverable so
that verification can be stated; one-wayness of the digest is irrelevant to
the claims under study. -/
inductive PHash where
  | bcrypt (salt : String) (content : String)
  | malformed (s : String)
  deriving DecidableEq, Repr

/-- Model of passlib `CryptContext.verify` (`pwd_context.verify` in Oauth2.py
line 23 and auth_service.py line 30): on a recognizable bcrypt hash it
returns whether the secret matches; on an unrecognizable hash string passlib
raises UnknownHashError (a ValueError subclass) instead of returning False. -/
def pwd_context_verify (secret : String) (h : PHash) : Except PyExc Bool :=
  match h with
  | .bcrypt _ content => .ok (content == secret)
  | .malformed _ => .error .unknownHashError

/-- Model of passlib `CryptContext.hash`: a salted bcrypt hash of the given
plaintext; the salt is drawn by the primitive, here passed explicitly. -/
def pwd_context_hash (plaintext salt : String) : PHash :=
  .bcrypt salt plaintext

/-- AuthService.verify_password (app/services/auth_service.py lines 37-44):
a direct delegation to pwd_context.verify, with no exception handling. -/
def verify_password (plain_password : String) (hashed_password : PHash) :
    Except PyExc Bool :=
  pwd_context_verify plain_password hashed_password

/-- AuthService.get_password_hash (app/services/auth_service.py lines 46-53):
a direct delegation to pwd_context.hash. -/
def get_password_hash (password salt : String) : PHash :=
  pwd_context_hash password salt

/-- Row of the `user` table (app/datamanager/models.py lines 19-40); only the
columns read by the embedded code paths are carried. -/
structure UserRow where
  id : Nat
  username : String
  password : PHash
  type_of_entity : String
  name : String
  surname : String
  email_address : String
  phone_number : String
  vat_id : Option String
  bank_account : Option String
  is_active : Bool
  deriving DecidableEq, Repr

/-- Row of the `contract` table (app/datamanager/models.py lines 79-99).
Monetary Numeric(10,2) columns are carried as integers (cent amounts) and
timestamps as integer seconds. -/
structure ContractRow where
  id : Nat
  created_at : Int
  name : String
  offeror_id : Nat
  offeree_id : Nat
  currency_code : String
  upon_signing : Int
  upon_completion : Int
  payment_method : String
  performance_fee : Int
  travel_expenses : Int
  accommodation_expenses : Int
  other_expenses : Int
  total_fee : Int
  disabled : Bool
  disabled_at : Option Int
  signed_at : Option Int
  delete_date : Option Int
  deriving DecidableEq, Repr

/-- Row of the `password_reset_tokens` table (app/datamanager/models.py lines
43-52). -/
structure ResetTokenRow where
  id : Nat
  user_id : Nat
  token_hash : PHash
  expires_at : Int
  created_at : Int
  deriving DecidableEq, Repr

/-- The relational store visible to the embedded code paths. -/
structure Db where
  users : List UserRow
  contracts : List ContractRow
  reset_tokens : List ResetTokenRow
  deriving DecidableEq, Repr

/-- pydantic_models.UserNoPwdPydantic (pydantic_models.py lines 38-57): the
user projection the DataManager hands out, declaring NO password field. -/
structure UserNoPwdPydantic where
  id : Nat
  username : String
  type_of_entity : String
  name : String
  surname : String
  email_address : String
  phone_number : String
  vat_id : Option String
  bank_account : Option String
  is_active : Bool
  deriving DecidableEq, Repr

/-- Python attribute access `u.password` on a UserNoPwdPydantic value: the
class declares no `password` field, so pydantic raises AttributeError for
this access. -/
def UserNoPwdPydantic.password_attr (_ : UserNoPwdPydantic) :
    Except PyExc PHash :=
  .error (.attributeError ("password"))

/-- The field-by-field projection both user lookups build (data_manager_SQLAlchemy.py
lines 80-91 and 103-115). -/
def UserRow.toNoPwd (u : UserRow) : UserNoPwdPydantic :=
  { id := u.id
    username := u.username
    type_of_entity := u.type_of_entity
    name := u.name
    surname := u.surname
    email_address := u.email_address
    phone_number := u.phone_number
    vat_id := u.vat_id
    bank_account := u.bank_account
    is_active := u.is_active }

/-- SQLAlchemyDataManager.get_user_by_username (data_manager_SQLAlchemy.py
lines 96-117): first user row matching the username, projected WITHOUT the
hashed password. -/
def get_user_by_username (username : String) (db : Db) :
    Option UserNoPwdPydantic :=
  match db.users.find? (fun u => u.username == username) with
  | some u => some u.toNoPwd
  | none => none

/-- SQLAlchemyDataManager.get_user_by_id (data_manager_SQLAlchemy.py lines
72-93): first user row matching the id, projected WITHOUT the hashed
password. -/
def get_user_by_id (user_id : Nat) (db : Db) : Option UserNoPwdPydantic :=
  match db.users.find? (fun u => u.id == user_id) with
  | some u => some u.toNoPwd
  | none => none

/-- The claim set of a JWT (the payload built by create_access_token: a data
dict with an optional "sub" entry, plus the integer "exp" claim). -/
structure JwtClaims where
  sub : Option String
  exp : Int
  deriving DecidableEq, Repr

/-- A signed JWT as produced by jwt.encode: the claims plus the signing key
(standing for the signature). -/
structure Jwt where
  claims : JwtClaims
  key : String
  deriving DecidableEq, Repr

/-- Model of jwt.encode(to_encode, SECRET_KEY, algorithm=ALGORITHM). -/
def jwt_encode (claims : JwtClaims) (secret : String) : Jwt :=
  { claims := claims, key := secret }

/-- Model of jwt.decode(token, SECRET_KEY, algorithms=[ALGORITHM]): the
signature and the exp claim are validated atomically; any failure is the
undifferentiated jwt.exceptions.InvalidTokenError. -/
def jwt_decode (t : Jwt) (secret : String) (now : Int) :
    Except PyExc JwtClaims :=
  if t.key == secret && now < t.claims.exp then .ok t.claims
  else .error .jwtInvalidToken

/-- Truthiness of a Python timedelta value: `if expires_delta:` treats both
None and timedelta(0) as falsy. -/
def timedelta_truthy : Option Int → Bool
  | none => false
  | some d => d != 0

/-- Oauth2.create_access_token (Oauth2.py lines 94-120), the token-issuing
primitive: when the expires_delta argument is falsy the expiry falls back to
now + timedelta(minutes=15).  The delta is in seconds. -/
def create_access_token (sub : String) (expires_delta : Option Int)
    (now : Int) (secret : String) : Jwt :=
  let expire : Int :=
    if timedelta_truthy expires_delta then now + expires_delta.getD 0
    else now + 15 * 60
  jwt_encode { sub := some sub, exp := expire } secret

/-- app/core/config.py line 8: ACCESS_TOKEN_EXPIRE_MINUTES is read from the
environment with the default 30. -/
def ACCESS_TOKEN_EXPIRE_MINUTES (env : Option Nat) : Nat :=
  env.getD 30

/-- AuthService.create_access_token (app/services/auth_service.py lines
70-86): same shape as the Oauth2 primitive, but the falsy-delta fallback is
now + timedelta(minutes=ACCESS_TOKEN_EXPIRE_MINUTES). -/
def service_create_access_token (sub : String) (expires_delta : Option Int)
    (now : Int) (secret : String) (env : Option Nat) : Jwt :=
  let expire : Int :=
    if timedelta_truthy expires_delta then now + expires_delta.getD 0
    else now + (ACCESS_TOKEN_EXPIRE_MINUTES env : Int) * 60
  jwt_encode { sub := some sub, exp := expire } secret

/-- app/api/security.py get_current_user (lines 35-69): decode the bearer
token, extract the sub claim, resolve it through the DataManager lookup; any
failure is the 401 credentials_exception.  The value handed to downstream
handlers is whatever get_user_by_username returns - the password-less
projection. -/
def get_current_user (token : Jwt) (db : Db) (secret : String) (now : Int) :
    Except PyExc UserNoPwdPydantic :=
  let credentials_exception : PyExc :=
    .httpException 401 ("Could not validate credentials") true
  match jwt_decode token secret now with
  | .error _ => .error credentials_exception
  | .ok payload =>
    match payload.sub with
    | none => .error credentials_exception
    | some username =>
      match get_user_by_username username db with
      | none => .error credentials_exception
      | some user => .ok user

/-- app/api/security.py get_current_active_user (lines 72-85): rejects an
inactive resolved identity with a 400, passes it through otherwise. -/
def get_current_active_user (token : Jwt) (db : Db) (secret : String)
    (now : Int) : Except PyExc UserNoPwdPydantic :=
  match get_current_user token db secret now with
  | .error e => .error e
  | .ok current_user =>
    if !current_user.is_active then
      .error (.httpException 400 ("Inactive user") false)
    else .ok current_user

/-- AuthService.authenticate_user (app/services/auth_service.py lines
55-68): look the user up via the DataManager, return None when absent,
otherwise verify the password against user.password.  The lookup returns the
password-less projection, so the user.password read raises AttributeError. -/
def authenticate_user (db : Db) (username password : String) :
    Except PyExc (Option UserNoPwdPydantic) :=
  match get_user_by_username username db with
  | none => .ok none
  | some user =>
    match user.password_attr with
    | .error e => .error e
    | .ok h =>
      match pwd_context_verify password h with
      | .error e => .error e
      | .ok b => if b then .ok (some user) else .ok none

/-- The body of the /token response (pydantic_models.Token). -/
structure TokenResponse where
  access_token : Jwt
  token_type : String
  deriving DecidableEq, Repr

/-- users.login_for_access_token (app/api/endpoints/users.py lines 26-59): a
falsy authenticate_user result yields the 401 with detail "Incorrect
username or password" and a WWW-Authenticate Bearer header; success issues a
token through the service with the explicit configured 30-minute delta.  An
exception escaping authenticate_user propagates unhandled. -/
def login_for_access_token (db : Db) (username password : String)
    (secret : String) (now : Int) (env : Option Nat) :
    Except PyExc TokenResponse :=
  match authenticate_user db username password with
  | .error e => .error e
  | .ok none =>
    .error (.httpException 401 ("Incorrect username or password") true)
  | .ok (some user) =>
    let access_token_expires : Int := (ACCESS_TOKEN_EXPIRE_MINUTES env : Int) * 60
    .ok { access_token :=
            service_create_access_token user.username
              (some access_token_expires) now secret env
          token_type := "bearer" }

/-- pydantic_models.ContractPydantic (pydantic_models.py lines 155-172), the
declared return shape of the contract read. -/
structure ContractPydantic where
  id : Option Nat
  name : String
  offeror_id : Nat
  offeree_id : Nat
  currency_code : String
  upon_signing : Int
  upon_completion : Int
  payment_method : String
  performance_fee : Int
  travel_expenses : Int
  accommodation_expenses : Int
  other_expenses : Int
  total_fee : Int
  disabled : Bool
  disabled_at : Option Int
  signed_at : Option Int
  delete_date : Option Int
  deriving DecidableEq, Repr

/-- SQLAlchemyDataManager.get_contract_by_id (data_manager_SQLAlchemy.py
lines 353-401).  The query filters on the contract id AND on party
membership (offeror or offeree); an empty result raises
ContractNotFoundException; a surviving row whose offeror is not the caller
raises ContractUserMismatchException - this branch fires exactly for the
offeree, who passed the query filter.  The final ContractPydantic
construction evaluates `contract.delete_at` (line 389), an attribute the
Contract model does not define (models.py line 99 names it delete_date), so
the offeror branch raises AttributeError, re-raised by the generic handler. -/
def get_contract_by_id (contract_id current_user_id : Nat) (db : Db) :
    Except PyExc ContractPydantic :=
  match db.contracts.find? (fun c =>
      c.id == contract_id &&
      (c.offeror_id == current_user_id || c.offeree_id == current_user_id)) with
  | none =>
    .error (.contractNotFound ("Contract with ID " ++ toString contract_id ++
      " for current user with ID " ++ toString current_user_id ++ " not found."))
  | some contract =>
    if contract.offeror_id != current_user_id then
      .error (.contractUserMismatch ("Contract with ID " ++ toString contract_id ++
        " does not belong to the current user with ID " ++
        toString current_user_id ++ "."))
    else
      .error (.attributeError ("delete_at"))

/-- pydantic_models.ContractUpdatePydantic (lines 188-204) restricted to the
updatable columns; a `none` field was not provided in the request
(model_dump(exclude_unset=True) drops it). -/
structure ContractUpdatePydantic where
  name : Option String := none
  offeree_id : Option Nat := none
  currency_code : Option String := none
  upon_signing : Option Int := none
  upon_completion : Option Int := none
  payment_method : Option String := none
  performance_fee : Option Int := none
  travel_expenses : Option Int := none
  accommodation_expenses : Option Int := none
  other_expenses : Option Int := none
  deriving DecidableEq, Repr

/-- The setattr loop of update_contract: each field provided in the request
replaces the stored one. -/
def apply_contract_update (c : ContractRow) (u : ContractUpdatePydantic) :
    ContractRow :=
  { c with
    name := u.name.getD c.name
    offeree_id := u.offeree_id.getD c.offeree_id
    currency_code := u.currency_code.getD c.currency_code
    upon_signing := u.upon_signing.getD c.upon_signing
    upon_completion := u.upon_completion.getD c.upon_completion
    payment_method := u.payment_method.getD c.payment_method
    performance_fee := u.performance_fee.getD c.performance_fee
    travel_expenses := u.travel_expenses.getD c.travel_expenses
    accommodation_expenses := u.accommodation_expenses.getD c.accommodation_expenses
    other_expenses := u.other_expenses.getD c.other_expenses }

/-- SQLAlchemyDataManager.update_contract (data_manager_SQLAlchemy.py lines
404-447): the row is looked up by id alone; a missing row raises
ContractNotFoundException, a caller other than the offeror raises
ContractUserMismatchException (with rollback, leaving the store unchanged);
otherwise the provided fields are applied, committed, and the result re-read
through get_contract_by_id. -/
def update_contract (contract_id : Nat) (upd : ContractUpdatePydantic)
    (current_user_id : Nat) (db : Db) :
    Except PyExc ContractPydantic × Db :=
  match db.contracts.find? (fun c => c.id == contract_id) with
  | none =>
    (.error (.contractNotFound ("Contract with ID " ++ toString contract_id ++
      " not found.")), db)
  | some contract =>
    if contract.offeror_id != current_user_id then
      (.error (.contractUserMismatch ("Contract with ID " ++
        toString contract_id ++ " does not belong to the current user with ID " ++
        toString current_user_id ++ ".")), db)
    else
      let db2 : Db := { db with contracts := db.contracts.map (fun c =>
        if c.id == contract_id then apply_contract_update c upd else c) }
      (get_contract_by_id contract_id current_user_id db2, db2)

/-- pydantic_models.UserCreatePydantic (lines 16-35), the registration
payload. -/
structure UserCreatePydantic where
  username : String
  type_of_entity : String
  password : String
  name : String
  surname : String
  email_address : String
  phone_number : String
  vat_id : Option String := none
  bank_account : Option String := none
  is_active : Bool := true
  deriving DecidableEq, Repr

/-- Environmental outcome of the session commit inside create_user: `ok`
commits normally (the uniqueness constraint of the store is checked against the
rows present), `operational msg` stands for any other SQLAlchemy failure
(lost connection and the like) raised at commit time. -/
inductive CommitFault where
  | ok
  | operational (msg : String)
  deriving DecidableEq, Repr

/-- The primary key the store assigns to the next inserted user row. -/
def next_user_id (db : Db) : Nat :=
  db.users.foldr (fun u m => max (u.id + 1) m) 1

/-- Python attribute access `new_user.iy` on a User row
(data_manager_SQLAlchemy.py line 56): the User model defines `id` but no
`iy`, so the access raises AttributeError. -/
def UserRow.iy_attr (_ : UserRow) : Except PyExc Nat :=
  .error (.attributeError ("iy"))

/-- SQLAlchemyDataManager.create_user (data_manager_SQLAlchemy.py lines
30-69).  The password is hashed, the row is built and committed; a username
or email collision raises IntegrityError, converted to the ValueError
"Username ... or email ... already exists." (the source wraps the two values
in single quotes); any other exception inside the try block is converted to
ValueError "An unexpected error occurred: ...".  After a successful commit
the method returns `new_user.iy`; the resulting AttributeError lands in that
generic handler, so the method raises ValueError even though the row was
persisted (the rollback after a completed commit undoes nothing). -/
def create_user (user_data : UserCreatePydantic) (salt : String)
    (fault : CommitFault) (db : Db) : Except PyExc Nat × Db :=
  match fault with
  | .operational msg =>
    (.error (.valueError ("An unexpected error occurred: " ++ msg)), db)
  | .ok =>
    if db.users.any (fun u =>
        u.username == user_data.username ||
        u.email_address == user_data.email_address) then
      (.error (.valueError ("Username " ++ user_data.username ++ " or email " ++
        user_data.email_address ++ " already exists.")), db)
    else
      let new_user : UserRow :=
        { id := next_user_id db
          username := user_data.username
          password := get_password_hash user_data.password salt
          type_of_entity := user_data.type_of_entity
          name := user_data.name
          surname := user_data.surname
          email_address := user_data.email_address
          phone_number := user_data.phone_number
          vat_id := user_data.vat_id
          bank_account := user_data.bank_account
          is_active := user_data.is_active }
      let db2 : Db := { db with users := db.users ++ [new_user] }
      match new_user.iy_attr with
      | .ok i => (.ok i, db2)
      | .error (.attributeError a) =>
        (.error (.valueError ("An unexpected error occurred: object has no attribute " ++ a)), db2)
      | .error e => (.error e, db2)

/-- AuthService.register_user (app/services/auth_service.py lines 89-109):
delegates to the DataManager (which hashes the password itself in the cited
implementation); a ValueError is re-raised unchanged - the channel the
docstring reserves for duplicate username/email - while any other exception
becomes RuntimeError. -/
def register_user (user_data : UserCreatePydantic) (salt : String)
    (fault : CommitFault) (db : Db) : Except PyExc Nat × Db :=
  match create_user user_data salt fault db with
  | (.ok user_id, db2) => (.ok user_id, db2)
  | (.error (.valueError m), db2) => (.error (.valueError m), db2)
  | (.error _, db2) =>
    (.error (.runtimeError ("Failed to register user due to an internal error.")), db2)

/-- users.sign_up (app/api/endpoints/users.py lines 62-95): returns the new
id; a ValueError maps to 409 Conflict (the duplicate channel), a
RuntimeError to 500, anything else to a generic 500. -/
def sign_up (user_data : UserCreatePydantic) (salt : String)
    (fault : CommitFault) (db : Db) : Except PyExc Nat × Db :=
  match register_user user_data salt fault db with
  | (.ok user_id, db2) => (.ok user_id, db2)
  | (.error (.valueError m), db2) => (.error (.httpException 409 m false), db2)
  | (.error (.runtimeError m), db2) => (.error (.httpException 500 m false), db2)
  | (.error _, db2) =>
    (.error (.httpException 500 ("An unexpected error occurred during user registration.") false), db2)

/-- Modelled from the spec: `update_password_hash(id, hash) -> success`.  The
DataManager method update_user_password is called by the service layer but
is absent from the sources; per the spec it replaces the stored account
hash and reports failure when no such account exists. -/
def update_user_password (user_id : Nat) (h : PHash) (db : Db) : Bool × Db :=
  if db.users.any (fun u => u.id == user_id) then
    (true, { db with users := db.users.map (fun u =>
      if u.id == user_id then { u with password := h } else u) })
  else (false, db)

/-- AuthService.change_user_password (app/services/auth_service.py lines
112-147): verify the old password against the hashed password handed in from
the resolved identity; a mismatch raises ValueError "Incorrect old password."
before anything is written; otherwise the new password is hashed and stored,
and a failed store update raises RuntimeError. -/
def change_user_password (user_id : Nat)
    (current_hashed_password_from_db : PHash)
    (old_password_attempt new_password salt : String) (db : Db) :
    Except PyExc Bool × Db :=
  match verify_password old_password_attempt current_hashed_password_from_db with
  | .error e => (.error e, db)
  | .ok false => (.error (.valueError ("Incorrect old password.")), db)
  | .ok true =>
    let hashed_new_password := get_password_hash new_password salt
    match update_user_password user_id hashed_new_password db with
    | (false, db2) =>
      (.error (.runtimeError ("Failed to update password: User not found in database for update.")), db2)
    | (true, db2) => (.ok true, db2)

/-- users.change_password (app/api/endpoints/users.py lines 97-136) composed
with get_common_dependencies (app/api/dependencies.py): session resolution
plus active check, then the handler body.  The body evaluates
current_user.password inside the try block to pass the stored hash to the
service; its except clauses map ValueError to 400, RuntimeError to 500 with
a fixed message, and any other exception - including the AttributeError from
the password read - to 500 "An unexpected error occurred: ...". -/
def change_password_endpoint (token : Jwt)
    (old_password new_password salt : String) (db : Db) (secret : String)
    (now : Int) : Except PyExc String × Db :=
  match get_current_active_user token db secret now with
  | .error e => (.error e, db)
  | .ok current_user =>
    match current_user.password_attr with
    | .ok h =>
      match change_user_password current_user.id h old_password new_password salt db with
      | (.ok _, db2) => (.ok ("Password changed successfully."), db2)
      | (.error (.valueError m), db2) =>
        (.error (.httpException 400 m false), db2)
      | (.error (.runtimeError _), db2) =>
        (.error (.httpException 500 ("An internal error occurred while changing password.") false), db2)
      | (.error _, db2) =>
        (.error (.httpException 500 ("An unexpected error occurred.") false), db2)
    | .error (.attributeError a) =>
      (.error (.httpException 500 ("An unexpected error occurred: object has no attribute " ++ a) false), db)
    | .error e => (.error e, db)

/-- Modelled from the spec: `delete_reset_token(id)`.  Called by the service
layer but absent from the sources; removes the reset-token row with the
given id. -/
def delete_reset_token (token_id : Nat) (db : Db) : Db :=
  { db with reset_tokens := db.reset_tokens.filter (fun t => t.id != token_id) }

/-- The verification loop of reset_user_password (auth_service.py lines
206-215): the first fetched token whose stored hash verifies against the
plain token; a passlib error on an unrecognizable stored hash propagates. -/
def find_matching_token (plain : String) :
    List ResetTokenRow → Except PyExc (Option ResetTokenRow)
  | [] => .ok none
  | t :: ts =>
    match pwd_context_verify plain t.token_hash with
    | .error e => .error e
    | .ok true => .ok (some t)
    | .ok false => find_matching_token plain ts

/-- AuthService.reset_user_password (app/services/auth_service.py lines
180-245).  `t1` is the datetime.now() of the active-token query and `t2` the
datetime.now() of the later expiry re-check (t1 ≤ t2 in any run).  The query
keeps only rows with expires_at strictly after t1, so a row already expired
at the query can never be matched and falls into the InvalidTokenError
branch; the ExpiredTokenError branch (which also deletes the row) can fire
only for a row that expires between the two clock reads. -/
def reset_user_password (token new_password salt : String) (db : Db)
    (t1 t2 : Int) : Except PyExc Bool × Db :=
  let active_tokens := db.reset_tokens.filter (fun t => t1 < t.expires_at)
  match find_matching_token token active_tokens with
  | .error e => (.error e, db)
  | .ok none =>
    (.error (.invalidTokenError ("Invalid or already used password reset token.")), db)
  | .ok (some reset_token_record) =>
    if reset_token_record.expires_at < t2 then
      (.error (.expiredTokenError ("Password reset token has expired.")),
        delete_reset_token reset_token_record.id db)
    else
      match get_user_by_id reset_token_record.user_id db with
      | none =>
        (.error (.userNotFoundError ("User associated with the token not found.")),
          delete_reset_token reset_token_record.id db)
      | some user_to_reset =>
        let hashed_new_password := get_password_hash new_password salt
        match update_user_password user_to_reset.id hashed_new_password db with
        | (false, db2) =>
          (.error (.runtimeError ("Failed to update user password in database.")), db2)
        | (true, db2) => (.ok true, delete_reset_token reset_token_record.id db2)

/-- A fixed signing secret for the concrete scenarios. -/
def testSecret : String := "k"

/-- A user row with a stored bcrypt hash of the password "correct-password". -/
def aliceRow : UserRow :=
  { id := 1
    username := "alice"
    password := .bcrypt ("s0") ("correct-password")
    type_of_entity := "individual"
    name := "Alice"
    surname := "Artist"
    email_address := "alice@example.com"
    phone_number := "+49 123"
    vat_id := none
    bank_account := none
    is_active := true }

/-- A store holding exactly the user alice. -/
def aliceDb : Db := { users := [aliceRow], contracts := [], reset_tokens := [] }

/-- A bearer token for alice, signed with the test secret, unexpired at time
1000. -/
def aliceToken : Jwt := { claims := { sub := some "alice", exp := 2000 }, key := "k" }

/-- A contract between offeror user 5 and offeree user 2. -/
def sampleContract : ContractRow :=
  { id := 1
    created_at := 0
    name := "Gig"
    offeror_id := 5
    offeree_id := 2
    currency_code := "EUR"
    upon_signing := 50
    upon_completion := 50
    payment_method := "bank transfer"
    performance_fee := 10000
    travel_expenses := 0
    accommodation_expenses := 0
    other_expenses := 0
    total_fee := 10000
    disabled := false
    disabled_at := none
    signed_at := none
    delete_date := none }

/-- A store holding exactly the sample contract. -/
def contractDb : Db :=
  { users := [], contracts := [sampleContract], reset_tokens := [] }

/-- An update payload with no field provided. -/
def emptyContractUpdate : ContractUpdatePydantic := {}

/-- A registration payload that collides with no row of an empty store. -/
def newUserData : UserCreatePydantic :=
  { username := "newuser"
    type_of_entity := "individual"
    password := "pw"
    name := "New"
    surname := "User"
    email_address := "new@example.com"
    phone_number := "+49 555" }

/-- The empty store. -/
def emptyDb : Db := { users := [], contracts := [], reset_tokens := [] }

/-- A store already holding a user with the username of newUserData. -/
def dupDb : Db :=
  { users := [{ aliceRow with id := 7, username := "newuser", email_address := "other@example.com" }]
    contracts := []
    reset_tokens := [] }

/-- A reset-token row for alice hashing the plaintext "tok", expired at time
1000 (expires_at = 500). -/
def expiredResetRow : ResetTokenRow :=
  { id := 1, user_id := 1, token_hash := .bcrypt ("ts") ("tok"), expires_at := 500, created_at := 0 }

/-- A store holding alice and her expired reset token. -/
def resetDb : Db :=
  { users := [aliceRow], contracts := [], reset_tokens := [expiredResetRow] }

/-- Helper for the reset flow: when no row of the fetched list verifies
against the plaintext token, the matching loop returns None. -/
theorem find_matching_token_eq_none (plain : String) (l : List ResetTokenRow)
    (h : ∀ t ∈ l, pwd_context_verify plain t.token_hash = .ok false) :
    find_matching_token plain l = .ok none := by
  induction l with
  | nil => rfl
  | cons t ts ih =>
    have ht := h t (List.mem_cons_self t ts)
    simp only [find_matching_token, ht]
    exact ih (fun s hs => h s (List.mem_cons_of_mem t hs))

/-- C1: the claim states that fetching a contract succeeds for either party
(offeror or offeree) and that only mutation is restricted to the offeror.
The code refutes the read half: on the contract with offeror 5 and offeree
2, the fetch by the offeree (user 2) raises ContractUserMismatchException,
and even the fetch by the offeror (user 5) raises AttributeError from the
contract.delete_at read in the final construction; the update by the
offeree is rejected with the store unchanged (that restriction does hold). -/
theorem c1_contract_read_not_granted_to_offeree :
    get_contract_by_id 1 2 contractDb =
      .error (.contractUserMismatch ("Contract with ID 1 does not belong to the current user with ID 2.")) ∧
    get_contract_by_id 1 5 contractDb = .error (.attributeError ("delete_at")) ∧
    (update_contract 1 emptyContractUpdate 2 contractDb).1 =
      .error (.contractUserMismatch ("Contract with ID 1 does not belong to the current user with ID 2.")) ∧
    (update_contract 1 emptyContractUpdate 2 contractDb).2 = contractDb :=
  ⟨rfl, rfl, rfl, rfl⟩

/-- C2 counterexample: a stored reset-token row hashing the plaintext "tok"
whose expiry (500) is in the past at the attempt time (1000).  The claim
says the attempt fails with ExpiredToken and the row is deleted; the run
actually fails with InvalidTokenError and leaves the store - including that
row - untouched. -/
theorem c2_expired_token_counterexample :
    (pwd_context_verify ("tok") expiredResetRow.token_hash = .ok true ∧
      expiredResetRow.expires_at < 1000 ∧
      expiredResetRow ∈ resetDb.reset_tokens) ∧
    reset_user_password ("tok") ("newpw") ("s2") resetDb 1000 1000 =
      (.error (.invalidTokenError ("Invalid or already used password reset token.")), resetDb) ∧
    (reset_user_password ("tok") ("newpw") ("s2") resetDb 1000 1000).1 ≠
      .error (.expiredTokenError ("Password reset token has expired.")) ∧
    expiredResetRow ∈ (reset_user_password ("tok") ("newpw") ("s2") resetDb 1000 1000).2.reset_tokens := by
  refine ⟨⟨rfl, by decide, by simp [resetDb]⟩, rfl, ?_, ?_⟩
  · have hres : (reset_user_password ("tok") ("newpw") ("s2") resetDb 1000 1000).1 =
        .error (.invalidTokenError ("Invalid or already used password reset token.")) := rfl
    rw [hres]
    simp
  · have hres : (reset_user_password ("tok") ("newpw") ("s2") resetDb 1000 1000).2 = resetDb := rfl
    rw [hres]
    simp [resetDb]

/-- C2 as amended: a reset attempt whose plaintext token matches a stored
row that is already expired at the lookup time t1 (and matches no unexpired
row) fails with InvalidTokenError - not ExpiredTokenError - and the row is
not deleted: the lookup query keeps only rows with expires_at after t1, so
the expiry re-check can fire only for a row expiring between the two clock
reads. -/
theorem c2_expired_token_yields_invalid_token
    (token np salt : String) (db : Db) (t1 t2 : Int) (r : ResetTokenRow)
    (hr : r ∈ db.reset_tokens)
    (_hmatch : pwd_context_verify token r.token_hash = .ok true)
    (_hexpired : r.expires_at ≤ t1)
    (hactive : ∀ s ∈ db.reset_tokens, t1 < s.expires_at →
        pwd_context_verify token s.token_hash = .ok false) :
    reset_user_password token np salt db t1 t2 =
      (.error (.invalidTokenError ("Invalid or already used password reset token.")), db) ∧
    r ∈ (reset_user_password token np salt db t1 t2).2.reset_tokens := by
  have hfind : find_matching_token token
      (db.reset_tokens.filter (fun t => t1 < t.expires_at)) = .ok none := by
    apply find_matching_token_eq_none
    intro s hs
    rw [List.mem_filter] at hs
    exact hactive s hs.1 (of_decide_eq_true hs.2)
  have hres : reset_user_password token np salt db t1 t2 =
      (.error (.invalidTokenError ("Invalid or already used password reset token.")), db) := by
    simp only [reset_user_password, hfind]
  exact ⟨hres, by rw [hres]; exact hr⟩

/-- C2 witness: the amended theorem applied to the concrete store holding
exactly the expired matching row. -/
theorem c2_expired_token_witness :
    reset_user_password ("tok") ("newpw") ("s2") resetDb 1000 1000 =
      (.error (.invalidTokenError ("Invalid or already used password reset token.")), resetDb) :=
  (c2_expired_token_yields_invalid_token ("tok") ("newpw") ("s2") resetDb 1000 1000
    expiredResetRow (by simp [resetDb]) rfl (by decide)
    (fun s hs hlt => by
      have hss : s = expiredResetRow := by simpa [resetDb] using hs
      subst hss
      exact absurd hlt (by decide))).1

/-- C3: the claim states that a registration with no username/email
collision whose persistence succeeds returns the id of the new row.  On the
empty store the commit does succeed and the row is persisted, but the
method then returns new_user.iy - an attribute the User model does not
define - so register_user raises ValueError (routed by sign_up to the 409
duplicate channel) instead of returning the id 1. -/
theorem c3_register_raises_despite_persisting :
    (register_user newUserData ("s1") .ok emptyDb).1 =
      .error (.valueError ("An unexpected error occurred: object has no attribute iy")) ∧
    (register_user newUserData ("s1") .ok emptyDb).2.users =
      [{ id := 1
         username := "newuser"
         password := .bcrypt ("s1") ("pw")
         type_of_entity := "individual"
         name := "New"
         surname := "User"
         email_address := "new@example.com"
         phone_number := "+49 555"
         vat_id := none
         bank_account := none
         is_active := true }] ∧
    (sign_up newUserData ("s1") .ok emptyDb).1 =
      .error (.httpException 409 ("An unexpected error occurred: object has no attribute iy") false) :=
  ⟨rfl, rfl, rfl⟩

/-- C4: omitting the expires_delta argument of the token-issuing primitive
yields an exp claim 15 minutes from issue; the 30-minute expiry of the
service default can only arise from an explicitly passed delta (the
primitive maps a delta d to exp = now + d for truthy d, and to now + 900
otherwise), while the service-layer wrapper with its own omitted delta uses
the configured 30 minutes. -/
theorem c4_primitive_default_ttl_is_fifteen_minutes
    (sub secret : String) (now : Int) (d : Option Int) :
    (create_access_token sub none now secret).claims.exp = now + 15 * 60 ∧
    (create_access_token sub (some (30 * 60)) now secret).claims.exp = now + 30 * 60 ∧
    (service_create_access_token sub none now secret none).claims.exp = now + 30 * 60 ∧
    ((create_access_token sub d now secret).claims.exp = now + 30 * 60 →
      d = some (30 * 60)) := by
  refine ⟨rfl, by norm_num [create_access_token, timedelta_truthy, jwt_encode], rfl, ?_⟩
  intro hexp
  match d with
  | none =>
    exfalso
    have hv : (create_access_token sub none now secret).claims.exp = now + 15 * 60 := rfl
    omega
  | some x =>
    by_cases hx : x = 0
    · exfalso
      subst hx
      have hv : (create_access_token sub (some 0) now secret).claims.exp = now + 15 * 60 := rfl
      omega
    · have hb : timedelta_truthy (some x) = true := by
        simp [timedelta_truthy, hx]
      have hv : (create_access_token sub (some x) now secret).claims.exp = now + x := by
        simp [create_access_token, jwt_encode, hb]
      have hx30 : x = 30 * 60 := by omega
      rw [hx30]

/-- C4 witness: the primitive evaluated at time 0 with the delta omitted and
with the explicit 30-minute delta. -/
theorem c4_primitive_default_ttl_witness :
    (create_access_token ("u") none 0 ("k")).claims.exp = 0 + 15 * 60 ∧
    ((create_access_token ("u") (some 1800) 0 ("k")).claims.exp = 0 + 30 * 60 →
      (some 1800 : Option Int) = some (30 * 60)) :=
  ⟨(c4_primitive_default_ttl_is_fifteen_minutes ("u") ("k") 0 (some 1800)).1,
    (c4_primitive_default_ttl_is_fifteen_minutes ("u") ("k") 0 (some 1800)).2.2.2⟩

/-- C5: the claim states that Session Resolution hands downstream handlers
an identity carrying the password hash.  On a store holding alice (with her
stored bcrypt hash) and a valid bearer token, get_current_user yields the
password-less UserNoPwdPydantic projection, whose password read is an
AttributeError, so the change-password handler - which reads
current_user.password for old-password verification - answers 500 even when
the correct old password is supplied, and the store is untouched. -/
theorem c5_resolved_identity_lacks_password_hash :
    get_current_user aliceToken aliceDb testSecret 1000 = .ok aliceRow.toNoPwd ∧
    aliceRow.toNoPwd.password_attr = .error (.attributeError ("password")) ∧
    (change_password_endpoint aliceToken ("correct-password") ("npw") ("s3") aliceDb testSecret 1000).1 =
      .error (.httpException 500 ("An unexpected error occurred: object has no attribute password") false) ∧
    (change_password_endpoint aliceToken ("correct-password") ("npw") ("s3") aliceDb testSecret 1000).2 = aliceDb :=
  ⟨rfl, rfl, rfl, rfl⟩

/-- C6 counterexample: on a second argument that is not a recognizable hash,
verify_password raises the passlib UnknownHashError instead of returning
false, refuting the never-throws half of the claim. -/
theorem c6_malformed_hash_counterexample :
    verify_password ("secret") (.malformed ("not-a-bcrypt-hash")) = .error .unknownHashError ∧
    verify_password ("secret") (.malformed ("not-a-bcrypt-hash")) ≠ .ok false := by
  refine ⟨rfl, ?_⟩
  have h : verify_password ("secret") (.malformed ("not-a-bcrypt-hash")) =
      .error .unknownHashError := rfl
  rw [h]
  simp

/-- C6 as amended: verify_password returns a boolean on every recognizable
bcrypt hash (true exactly on a match), but on a malformed hash it
propagates the UnknownHashError of the underlying primitive - the wrapper adds
no handling that would turn it into false. -/
theorem c6_verify_by_hash_shape (p salt pw s : String) :
    verify_password p (pwd_context_hash pw salt) = .ok (pw == p) ∧
    verify_password p (.malformed s) = .error .unknownHashError :=
  ⟨rfl, rfl⟩

/-- C7: the claim states that a registration failure other than a
username/email collision surfaces as an undisclosed internal failure of a
different kind than the duplicate failure.  A commit failing for an
unrelated reason (lost connection) is converted by the generic create_user
handler to ValueError, which register_user re-raises on the same channel
its docstring reserves for duplicates and sign_up maps to the same 409 as a
genuine collision, so the two causes are not distinguishable by kind. -/
theorem c7_nonduplicate_failure_not_distinct :
    (register_user newUserData ("s1") (.operational ("connection lost")) emptyDb).1 =
      .error (.valueError ("An unexpected error occurred: connection lost")) ∧
    (sign_up newUserData ("s1") (.operational ("connection lost")) emptyDb).1 =
      .error (.httpException 409 ("An unexpected error occurred: connection lost") false) ∧
    (sign_up newUserData ("s1") .ok dupDb).1 =
      .error (.httpException 409 ("Username newuser or email new@example.com already exists.") false) :=
  ⟨rfl, rfl, rfl⟩

/-- C8: the claim states that login with an unknown username and login with
a known username but wrong password produce identical 401 responses.  On a
store holding alice, the unknown-user attempt does produce the 401, but the
known-user attempt never reaches password verification: the lookup hands
authenticate_user the password-less projection and the user.password read
raises AttributeError, which escapes the endpoint unhandled - so the two
failures are distinguishable. -/
theorem c8_login_failures_distinguishable :
    login_for_access_token aliceDb ("ghost") ("whatever") testSecret 1000 none =
      .error (.httpException 401 ("Incorrect username or password") true) ∧
    login_for_access_token aliceDb ("alice") ("wrong-password") testSecret 1000 none =
      .error (.attributeError ("password")) ∧
    (.error (.attributeError ("password")) : Except PyExc TokenResponse) ≠
      .error (.httpException 401 ("Incorrect username or password") true) :=
  ⟨rfl, rfl, by simp⟩

/-- C9: when the supplied old password does not verify against the stored
hash handed in for the resolved identity, change_user_password raises the
ValueError "Incorrect old password." - the InvalidCredential failure the
endpoint maps to 400 - and returns the store unchanged, so the previously
stored hash (and whatever password verified against it) is untouched. -/
theorem c9_wrong_old_password_rejected (user_id : Nat) (h : PHash)
    (old_password_attempt new_password salt : String) (db : Db)
    (hbad : verify_password old_password_attempt h = .ok false) :
    change_user_password user_id h old_password_attempt new_password salt db =
      (.error (.valueError ("Incorrect old password.")), db) := by
  unfold change_user_password
  rw [hbad]

/-- C9 witness: the wrong old password "wrong" against the stored alice
hash of "correct-password". -/
theorem c9_wrong_old_password_witness :
    change_user_password 1 (.bcrypt ("s0") ("correct-password")) ("wrong") ("npw") ("s4") aliceDb =
      (.error (.valueError ("Incorrect old password.")), aliceDb) :=
  c9_wrong_old_password_rejected 1 (.bcrypt ("s0") ("correct-password")) ("wrong") ("npw") ("s4")
    aliceDb rfl

/-- C10: for a caller who is party to no contract with the requested id
(in particular for an existing contract whose offeror and offeree are both
other users, and equally for a nonexistent id), get_contract_by_id fails
with ContractNotFoundException - never the ownership-mismatch error - and
the outcome is literally the same as on a store from which every contract
with that id has been removed, because the query itself filters on party
membership. -/
theorem c10_nonparty_fetch_is_not_found (contract_id current_user_id : Nat) (db : Db)
    (hnp : ∀ c ∈ db.contracts, c.id = contract_id →
      c.offeror_id ≠ current_user_id ∧ c.offeree_id ≠ current_user_id) :
    get_contract_by_id contract_id current_user_id db =
      .error (.contractNotFound ("Contract with ID " ++ toString contract_id ++
        " for current user with ID " ++ toString current_user_id ++ " not found.")) ∧
    get_contract_by_id contract_id current_user_id db =
      get_contract_by_id contract_id current_user_id
        { db with contracts := db.contracts.filter (fun c => c.id != contract_id) } := by
  have hfind : db.contracts.find? (fun c =>
      c.id == contract_id &&
      (c.offeror_id == current_user_id || c.offeree_id == current_user_id)) = none := by
    rw [List.find?_eq_none]
    intro c hc hpc
    simp only [Bool.and_eq_true, beq_iff_eq, Bool.or_eq_true] at hpc
    obtain ⟨hid, hor⟩ := hpc
    obtain ⟨h1, h2⟩ := hnp c hc hid
    cases hor with
    | inl h => exact h1 h
    | inr h => exact h2 h
  have hfind2 : (db.contracts.filter (fun c => c.id != contract_id)).find? (fun c =>
      c.id == contract_id &&
      (c.offeror_id == current_user_id || c.offeree_id == current_user_id)) = none := by
    rw [List.find?_eq_none]
    intro c hc hpc
    rw [List.mem_filter] at hc
    simp only [Bool.and_eq_true, beq_iff_eq, Bool.or_eq_true] at hpc
    have hne := hc.2
    simp only [bne_iff_ne, ne_eq] at hne
    exact hne hpc.1
  constructor
  · unfold get_contract_by_id
    rw [hfind]
  · unfold get_contract_by_id
    rw [hfind, hfind2]

/-- C10 witness: user 7, a stranger to the contract between users 5 and 2,
receives the not-found error. -/
theorem c10_nonparty_fetch_witness :
    get_contract_by_id 1 7 contractDb =
      .error (.contractNotFound ("Contract with ID 1 for current user with ID 7 not found.")) :=
  (c10_nonparty_fetch_is_not_found 1 7 contractDb
    (fun c hc hid => by
      have hcc : c = sampleContract := by simpa [contractDb] using hc
      subst hcc
      exact ⟨by decide, by decide⟩)).1
